import Mathlib

set_option autoImplicit false

namespace NixEval

/-- Evaluation modes of the deterministic Record/Playback subsystem
(`DeterministicEvaluationMode`, eval.hh lines 21-26). -/
inductive DeterministicEvaluationMode where
  | Normal
  | Record
  | Playback
  | RecordAndPlayback
deriving DecidableEq

/-- Source position (`Pos`), carried into error messages. -/
structure Pos where
  file : String
  line : Nat
  column : Nat
deriving DecidableEq

/-- Modelled from the spec: the printed form of a `Pos` used when a position is
interpolated into an error message (the printer body is not under src/). -/
def showPos (p : Pos) : String :=
  p.file ++ ":" ++ toString p.line ++ ":" ++ toString p.column

/-- Evaluation errors (`EvalError`): a raised failure carrying a message. -/
structure EvalError where
  msg : String
deriving DecidableEq

/-- Modelled from the spec: the tagged runtime value (`Value`; its definition in
value.hh is not under src/). Only the tags the claims need are modelled.
Environments and unevaluated expressions are identified by abstract ids, and the
evaluator over them is passed as a parameter where needed. -/
inductive Value where
  | thunk (env : Nat) (expr : Nat)
  | blackhole
  | vInt (n : Int)
  | vBool (b : Bool)
  | vStr (s : String)
  | vNull
deriving DecidableEq

/-- Modelled from the spec: `parameterValue` (declared in eval.hh line 220, body
not under src/) stringifies an argument value into the snapshot that enters
Recording-table keys. -/
def parameterValue : Value → String
  | Value.thunk _ _ => "<thunk>"
  | Value.blackhole => "<blackhole>"
  | Value.vInt n => toString n
  | Value.vBool true => "true"
  | Value.vBool false => "false"
  | Value.vStr s => s
  | Value.vNull => "null"

/-- Keys of the Recording table: (operation name, ordered list of stringified
masked-argument snapshots), as built by the loops of recordPrimOp and
playbackPrimOp (eval.hh lines 232-237 and 245-250). -/
abbrev RecordingKey := String × List String

/-- The Recording table (field `recording` of EvalState, eval.hh line 108, a
std::map keyed by RecordingKey), modelled as an association list with map
semantics: at most one entry per key. -/
abbrev Recording := List (RecordingKey × Value)

/-- Lookup in the Recording table (std::map::find). -/
def recFind : Recording → RecordingKey → Option Value
  | [], _ => none
  | (k, v) :: rest, key => if k = key then some v else recFind rest key

/-- Write into the Recording table (std::map::operator[] plus assignment, eval.hh
line 239): overwrite the entry for the key when one is present, otherwise add a
new entry. -/
def recInsert : Recording → RecordingKey → Value → Recording
  | [], key, v => [(key, v)]
  | (k, w) :: rest, key, v =>
      if k = key then (key, v) :: rest else (k, w) :: recInsert rest key v

/-- The part of EvalState that the impure-primop wrappers read and write: the
Recording table. -/
structure EvalCtx where
  recording : Recording
deriving DecidableEq

/-- The world outside the evaluator; sideEffects counts invocations of real
impure implementations (the side-effect counter of the spec). -/
structure World where
  sideEffects : Nat
deriving DecidableEq

/-- Type of a real primop implementation (`PrimOpFun`, eval.hh line 28): it may
act on the external world and either produce a value or raise an EvalError. -/
def PrimOpFun : Type :=
  Pos → (Nat → Value) → World → World × Except EvalError Value

/-- Semantics of a registered (possibly wrapped) primop: like PrimOpFun, with
access to the Recording table held by the EvalState. -/
def PrimOpSem : Type :=
  Pos → (Nat → Value) → EvalCtx → World → EvalCtx × World × Except EvalError Value

/-- Lifting of a raw implementation to a registered primop that leaves the
Recording table untouched (how an unwrapped PrimOpFun behaves). -/
def liftPrimOp (primOp : PrimOpFun) : PrimOpSem := fun pos args st w =>
  match primOp pos args w with
  | (w2, r) => (st, w2, r)

/-- Argument-usage mask constTrue (eval.hh line 224): every position is used. -/
def constTrue (_ : Nat) : Bool := true

/-- Argument-usage mask onlyPos (eval.hh lines 225-226): exactly the given
argument position is used. -/
def onlyPos (argumentPos : Nat) (arg : Nat) : Bool := arg == argumentPos

/-- The ordered list of stringified masked arguments: the loop
for i in [0, arity), if useArgument(i) then push parameterValue(args[i]). -/
def maskedArgList (arity : Nat) (useArgument : Nat → Bool) (args : Nat → Value) :
    List String :=
  ((List.range arity).filter useArgument).map fun i => parameterValue (args i)

/-- The Recording-table key computed identically by both wrappers:
(operation name, masked argument list). -/
def recordKey (name : String) (arity : Nat) (useArgument : Nat → Bool)
    (args : Nat → Value) : RecordingKey :=
  (name, maskedArgList arity useArgument args)

/-- recordPrimOp (eval.hh lines 229-240): build the key, invoke the real
implementation unconditionally, then write the resulting value into the
Recording table under the key, overwriting any prior entry. If the
implementation throws, the exception propagates before the write, so the table
is left unchanged. -/
def recordPrimOp (name : String) (arity : Nat) (primOp : PrimOpFun)
    (useArgument : Nat → Bool) : PrimOpSem := fun pos args st w =>
  match primOp pos args w with
  | (w2, Except.ok v) =>
      (⟨recInsert st.recording (recordKey name arity useArgument args) v⟩, w2,
        Except.ok v)
  | (w2, Except.error e) => (st, w2, Except.error e)

/-- The error message built by playbackPrimOp on a miss (eval.hh lines 253-259):
the words "wanted to call ", then the operation name, then "(", then every
stringified masked argument followed by ", ", then ")". -/
def playbackMissMsg (name : String) (argList : List String) : String :=
  "wanted to call " ++ name ++ "(" ++
    argList.foldl (fun acc arg => acc ++ arg ++ ", ") "" ++ ")"

/-- playbackPrimOp (eval.hh lines 242-265): build the same key, look it up in the
Recording table; on a hit return the stored value, on a miss raise an EvalError
naming the operation and the stringified argument snapshots. The real
implementation (template parameter primOp) is never used. -/
def playbackPrimOp (name : String) (arity : Nat) (_primOp : PrimOpFun)
    (useArgument : Nat → Bool) : PrimOpSem := fun _pos args st w =>
  match recFind st.recording (recordKey name arity useArgument args) with
  | none =>
      (st, w, Except.error ⟨playbackMissMsg name (maskedArgList arity useArgument args)⟩)
  | some v => (st, w, Except.ok v)

/-- Result of transformPrimOp: either a function pointer to register, or the
process aborts (the default branch of the switch calls abort()). -/
inductive TransformedPrimOp where
  | wrapped (f : PrimOpSem)
  | aborted

/-- transformPrimOp (eval.hh lines 267-276): select the wrapper for the active
mode; Record and Playback pick their wrappers, Normal returns the raw
implementation, and the remaining mode (RecordAndPlayback) falls into the
default branch, which calls abort(). -/
def transformPrimOp (mode : DeterministicEvaluationMode) (name : String)
    (arity : Nat) (primOp : PrimOpFun) (useArguments : Nat → Bool) :
    TransformedPrimOp :=
  match mode with
  | DeterministicEvaluationMode.Record =>
      TransformedPrimOp.wrapped (recordPrimOp name arity primOp useArguments)
  | DeterministicEvaluationMode.Playback =>
      TransformedPrimOp.wrapped (playbackPrimOp name arity primOp useArguments)
  | DeterministicEvaluationMode.Normal =>
      TransformedPrimOp.wrapped (liftPrimOp primOp)
  | DeterministicEvaluationMode.RecordAndPlayback => TransformedPrimOp.aborted

/-- Modelled from the spec (for comparison with transformPrimOp): the
RecordAndPlayback behavior the spec describes — try the Playback path first and
on a miss fall back to the Record path (invoke + store). -/
def recordAndPlaybackPrimOp (name : String) (arity : Nat) (primOp : PrimOpFun)
    (useArgument : Nat → Bool) : PrimOpSem := fun pos args st w =>
  match recFind st.recording (recordKey name arity useArgument args) with
  | some v => (st, w, Except.ok v)
  | none => recordPrimOp name arity primOp useArgument pos args st w

/-- The error message of unsupportedPrimOp (eval.hh line 287), naming the
operation and the call-site position. -/
def unsupportedMsg (name : String) (pos : Pos) : String :=
  "primop \x27" ++ name ++
    "\x27 is not (yet) supported in Record/Playback mode (used at \x27" ++
    showPos pos ++ "\x27)"

/-- unsupportedPrimOp (eval.hh lines 284-288): always throws an EvalError naming
the operation and the call-site position; the arguments are never inspected. -/
def unsupportedPrimOp (name : String) : PrimOpSem := fun pos _args st w =>
  (st, w, Except.error ⟨unsupportedMsg name pos⟩)

/-- addUnsupportedImpurePrimOp (eval.hh lines 290-299): under Record or Playback
register unsupportedPrimOp, otherwise register the raw implementation. The
result is the primop that gets registered. -/
def addUnsupportedImpurePrimOp (mode : DeterministicEvaluationMode)
    (name : String) (_arity : Nat) (primOp : PrimOpFun) : PrimOpSem :=
  if mode = DeterministicEvaluationMode.Record ∨
      mode = DeterministicEvaluationMode.Playback then
    unsupportedPrimOp name
  else
    liftPrimOp primOp

/-- Concrete (weak-head-normal) values: every tag other than Thunk and
Blackhole. Evaluation of a captured expression always yields such a value. -/
def Value.isConcrete : Value → Bool
  | Value.thunk _ _ => false
  | Value.blackhole => false
  | _ => true

/-- State of one shared thunk cell while it is being forced: the cell contents
(shared by every holder of the handle), plus a counter of how many times the
captured expression has been evaluated. -/
structure ForceState where
  cell : Value
  evalCount : Nat
deriving DecidableEq

/-- The error raised when a Blackhole cell is forced again. -/
def infiniteRecursionError : EvalError := ⟨"infinite recursion encountered"⟩

/-- Modelled from the spec: `forceValue` (declared at eval.hh lines 158-162, body
not under src/). The state machine per value cell: an already-concrete tag is a
no-op; a Thunk is marked Blackhole, its captured expression is evaluated through
the external evaluator `ev`, and the cell is overwritten in place with the
result — or left Blackhole permanently when evaluation raises; forcing a cell
that is already Blackhole is the infinite-recursion error. -/
def forceValue (ev : Nat → Nat → Except EvalError Value) (s : ForceState) :
    ForceState × Except EvalError Value :=
  match s.cell with
  | Value.thunk env expr =>
      match ev env expr with
      | Except.ok v => (⟨v, s.evalCount + 1⟩, Except.ok v)
      | Except.error e => (⟨Value.blackhole, s.evalCount + 1⟩, Except.error e)
  | Value.blackhole => (s, Except.error infiniteRecursionError)
  | v => (s, Except.ok v)

/-- Modelled from the spec: whether one search-path entry (prefix, target)
satisfies the requested module name — resolve the entry to a location and keep
it exactly when that location exists on disk. The per-entry resolution and the
disk oracle are external parameters. -/
def entryHit (existsOnDisk : String → Bool)
    (resolve : String × String → String → Option String) (nm : String)
    (entry : String × String) : Option String :=
  match resolve entry nm with
  | some loc => if existsOnDisk loc then some loc else none
  | none => none

/-- Modelled from the spec: walk the search path in list order and return the
first resolution that exists on disk. -/
def findFileAux (existsOnDisk : String → Bool)
    (resolve : String × String → String → Option String) (nm : String) :
    List (String × String) → Option String
  | [] => none
  | entry :: rest =>
      match entryHit existsOnDisk resolve nm entry with
      | some loc => some loc
      | none => findFileAux existsOnDisk resolve nm rest

/-- Modelled from the spec: printed form of the attempted search path, used in
the file-not-found error message. -/
def showSearchPath (sp : List (String × String)) : String :=
  sp.foldl (fun acc entry => acc ++ entry.1 ++ "=" ++ entry.2 ++ " ") ""

/-- Modelled from the spec: the file-not-found message names the requested
module and the attempted search path. -/
def fileNotFoundMsg (sp : List (String × String)) (nm : String) : String :=
  "file " ++ nm ++ " was not found in the Nix search path " ++ showSearchPath sp

/-- Modelled from the spec: `findFile` (declared at eval.hh lines 141-143, body
not under src/): return the resolution of the first search-path entry whose
resolved location exists on disk; exhausting the list is a file-not-found
error naming the attempted search path. -/
def findFile (existsOnDisk : String → Bool)
    (resolve : String × String → String → Option String)
    (sp : List (String × String)) (nm : String) : Except EvalError String :=
  match findFileAux existsOnDisk resolve nm sp with
  | some loc => Except.ok loc
  | none => Except.error ⟨fileNotFoundMsg sp nm⟩

/-- Concrete real implementation used in closed instances: returns a string
and bumps the side-effect counter of the world. -/
def witRealOp : PrimOpFun := fun _ _ w =>
  (⟨w.sideEffects + 1⟩, Except.ok (Value.vStr "real"))

/-- Second concrete real implementation, with a distinguishable result. -/
def witRealOp2 : PrimOpFun := fun _ _ w =>
  (⟨w.sideEffects + 1⟩, Except.ok (Value.vStr "real2"))

/-- Concrete real implementation that raises an EvalError. -/
def witFailOp : PrimOpFun := fun _ _ w =>
  (⟨w.sideEffects + 1⟩, Except.error ⟨"boom"⟩)

/-- Concrete call-site position used in closed instances. -/
def witPos : Pos := ⟨"test.nix", 1, 2⟩

/-- Concrete argument vector used in closed instances. -/
def witArgs : Nat → Value := fun i =>
  if i = 0 then Value.vStr "HOME" else Value.vInt 5

/-- Argument vector agreeing with witArgs on position 0 only. -/
def witArgs2 : Nat → Value := fun i =>
  if i = 0 then Value.vStr "HOME" else Value.vInt 99

/-- Concrete external evaluator that succeeds with an integer. -/
def witEval : Nat → Nat → Except EvalError Value := fun _ _ =>
  Except.ok (Value.vInt 7)

/-- Concrete external evaluator that raises. -/
def witEvalFail : Nat → Nat → Except EvalError Value := fun _ _ =>
  Except.error ⟨"assertion failed"⟩

/-- Concrete disk oracle for the search-path instances. -/
def witExists : String → Bool := fun s => s == "A/mod" || s == "B/mod"

/-- Concrete per-entry resolution: target ++ "/" ++ requested name. -/
def witResolve : String × String → String → Option String := fun e n =>
  some (e.2 ++ "/" ++ n)

/-- Concrete two-entry search path: pkgs maps to dir A, lib maps to dir B. -/
def witSP : List (String × String) := [("pkgs", "A"), ("lib", "B")]

theorem recFind_recInsert (r : Recording) (k : RecordingKey) (v : Value) :
    recFind (recInsert r k v) k = some v := by
  induction r with
  | nil => simp [recInsert, recFind]
  | cons hd t ih =>
      obtain ⟨k2, v2⟩ := hd
      by_cases hk : k2 = k
      · simp [recInsert, hk, recFind]
      · simp [recInsert, hk, recFind, ih]

theorem data_infix_append (pre s post : String) :
    s.data <:+: (pre ++ s ++ post).data :=
  ⟨pre.data, post.data, by simp [String.data_append]⟩

theorem foldl_append_pre (l : List String) (init : String) :
    init.data <+: (l.foldl (fun acc arg => acc ++ arg ++ ", ") init).data := by
  induction l generalizing init with
  | nil => exact ⟨[], by simp⟩
  | cons a t ih =>
      simp only [List.foldl_cons]
      exact List.IsPrefix.trans
        ⟨a.data ++ ", ".data, by simp [String.data_append]⟩
        (ih (init ++ a ++ ", "))

theorem mem_foldl_infix (a : String) (l : List String) (h : a ∈ l)
    (init : String) :
    a.data <:+: (l.foldl (fun acc arg => acc ++ arg ++ ", ") init).data := by
  induction l generalizing init with
  | nil => cases h
  | cons b t ih =>
      simp only [List.foldl_cons]
      rcases List.mem_cons.mp h with rfl | hmem
      · have hpre := foldl_append_pre t (init ++ a ++ ", ")
        obtain ⟨u, hu⟩ := hpre
        exact ⟨init.data, ", ".data ++ u, by
          simp only [← hu, String.data_append]
          simp⟩
      · exact ih hmem (init ++ b ++ ", ")

theorem maskedArgList_congr (arity : Nat) (use : Nat → Bool)
    (args1 args2 : Nat → Value)
    (h : ∀ i, i < arity → use i = true → args1 i = args2 i) :
    maskedArgList arity use args1 = maskedArgList arity use args2 := by
  unfold maskedArgList
  apply List.map_congr_left
  intro i hi
  have hmem := List.mem_filter.mp hi
  have hrange := List.mem_range.mp hmem.1
  rw [h i hrange hmem.2]

theorem findFileAux_of_first (ex : String → Bool)
    (res : String × String → String → Option String) (nm : String)
    (l : List (String × String)) :
    ∀ (i : Nat) (hi : i < l.length) (loc : String),
      entryHit ex res nm (l.get ⟨i, hi⟩) = some loc →
      (∀ j (hj : j < i), entryHit ex res nm (l.get ⟨j, Nat.lt_trans hj hi⟩) = none) →
      findFileAux ex res nm l = some loc := by
  induction l with
  | nil => intro i hi loc _ _; exact absurd hi (Nat.not_lt_zero i)
  | cons e t ih =>
      intro i hi loc hhit hbefore
      cases i with
      | zero =>
          have h0 : entryHit ex res nm e = some loc := hhit
          simp [findFileAux, h0]
      | succ n =>
          have h0 : entryHit ex res nm e = none := hbefore 0 (Nat.succ_pos n)
          have ht := ih n (Nat.lt_of_succ_lt_succ hi) loc hhit
            (fun j hj => hbefore (j + 1) (Nat.succ_lt_succ hj))
          simp [findFileAux, h0, ht]

theorem findFileAux_of_none (ex : String → Bool)
    (res : String × String → String → Option String) (nm : String)
    (l : List (String × String)) (h : ∀ e ∈ l, entryHit ex res nm e = none) :
    findFileAux ex res nm l = none := by
  induction l with
  | nil => rfl
  | cons e t ih =>
      have h0 : entryHit ex res nm e = none := h e (List.mem_cons_self e t)
      have ht := ih (fun x hx => h x (List.mem_cons_of_mem e hx))
      simp [findFileAux, h0, ht]

/-- Claim C1: in Record mode the real implementation is invoked unconditionally
— its effect on the world happens on both calls even though the key is
identical and regardless of what the Recording table already holds — and the
resulting value is written into the table under the computed key, overwriting
any prior entry, so after two invocations with an identical key the table
holds the result of the second call (last-write-wins). -/
theorem recordPrimOp_lastWriteWins
    (p1 p2 : PrimOpFun) (name : String) (arity : Nat) (use : Nat → Bool)
    (pos : Pos) (args1 args2 : Nat → Value) (st : EvalCtx) (w w1 w2 : World)
    (v1 v2 : Value)
    (h1 : p1 pos args1 w = (w1, Except.ok v1))
    (h2 : p2 pos args2 w1 = (w2, Except.ok v2))
    (hkey : recordKey name arity use args1 = recordKey name arity use args2) :
    recordPrimOp name arity p1 use pos args1 st w
      = (⟨recInsert st.recording (recordKey name arity use args1) v1⟩, w1,
          Except.ok v1) ∧
    recFind (recordPrimOp name arity p1 use pos args1 st w).1.recording
        (recordKey name arity use args1) = some v1 ∧
    recordPrimOp name arity p2 use pos args2
        (recordPrimOp name arity p1 use pos args1 st w).1 w1
      = (⟨recInsert (recInsert st.recording (recordKey name arity use args1) v1)
            (recordKey name arity use args2) v2⟩, w2, Except.ok v2) ∧
    recFind (recordPrimOp name arity p2 use pos args2
        (recordPrimOp name arity p1 use pos args1 st w).1 w1).1.recording
        (recordKey name arity use args1) = some v2 := by
  have e1 : recordPrimOp name arity p1 use pos args1 st w
      = (⟨recInsert st.recording (recordKey name arity use args1) v1⟩, w1,
          Except.ok v1) := by
    unfold recordPrimOp
    rw [h1]
  have e2 : recordPrimOp name arity p2 use pos args2
      (recordPrimOp name arity p1 use pos args1 st w).1 w1
      = (⟨recInsert (recInsert st.recording (recordKey name arity use args1) v1)
            (recordKey name arity use args2) v2⟩, w2, Except.ok v2) := by
    rw [e1]
    unfold recordPrimOp
    rw [h2]
  refine ⟨e1, ?_, e2, ?_⟩
  · rw [e1]
    exact recFind_recInsert st.recording (recordKey name arity use args1) v1
  · rw [e2, hkey]
    exact recFind_recInsert
      (recInsert st.recording (recordKey name arity use args2) v1)
      (recordKey name arity use args2) v2

/-- Closed instance of recordPrimOp_lastWriteWins: two successive Record-mode
calls with the identical key; the table ends with the second result and the
side-effect counter shows both real invocations. -/
theorem recordPrimOp_lastWriteWins_witness :
    recFind (recordPrimOp "getEnv" 1 witRealOp2 constTrue witPos witArgs
        (recordPrimOp "getEnv" 1 witRealOp constTrue witPos witArgs ⟨[]⟩ ⟨0⟩).1
        ⟨1⟩).1.recording (recordKey "getEnv" 1 constTrue witArgs)
      = some (Value.vStr "real2") :=
  (recordPrimOp_lastWriteWins witRealOp witRealOp2 "getEnv" 1 constTrue witPos
    witArgs witArgs ⟨[]⟩ ⟨0⟩ ⟨1⟩ ⟨2⟩ (Value.vStr "real") (Value.vStr "real2")
    rfl rfl rfl).2.2.2

/-- Claim C2: in Playback mode, when the computed key is present in the
Recording table the dispatcher returns the stored value, leaves the state and
the world untouched, and never invokes the real implementation (the result is
the same for every real implementation and the side-effect counter in the
world is unchanged). -/
theorem playbackPrimOp_hit
    (name : String) (arity : Nat) (primOp : PrimOpFun) (use : Nat → Bool)
    (pos : Pos) (args : Nat → Value) (st : EvalCtx) (w : World) (v : Value)
    (h : recFind st.recording (recordKey name arity use args) = some v) :
    playbackPrimOp name arity primOp use pos args st w = (st, w, Except.ok v) := by
  unfold playbackPrimOp
  rw [h]

/-- Closed instance of playbackPrimOp_hit: the stored value comes back, the
world (side-effect counter) is unchanged, even though the real implementation
witRealOp would have bumped it. -/
theorem playbackPrimOp_hit_witness :
    playbackPrimOp "getEnv" 1 witRealOp constTrue witPos witArgs
        ⟨[(("getEnv", ["HOME"]), Value.vStr "/root")]⟩ ⟨0⟩
      = (⟨[(("getEnv", ["HOME"]), Value.vStr "/root")]⟩, ⟨0⟩,
          Except.ok (Value.vStr "/root")) :=
  playbackPrimOp_hit "getEnv" 1 witRealOp constTrue witPos witArgs
    ⟨[(("getEnv", ["HOME"]), Value.vStr "/root")]⟩ ⟨0⟩ (Value.vStr "/root") rfl

/-- Claim C3: in Playback mode, when the computed key is absent from the
Recording table the dispatcher fails with an EvalError whose message names the
operation and the stringified snapshots of its masked arguments, leaving state
and world untouched for every real implementation (so the real implementation
is not invoked). -/
theorem playbackPrimOp_miss
    (name : String) (arity : Nat) (primOp : PrimOpFun) (use : Nat → Bool)
    (pos : Pos) (args : Nat → Value) (st : EvalCtx) (w : World)
    (h : recFind st.recording (recordKey name arity use args) = none) :
    playbackPrimOp name arity primOp use pos args st w
      = (st, w,
          Except.error ⟨playbackMissMsg name (maskedArgList arity use args)⟩) ∧
    name.data <:+: (playbackMissMsg name (maskedArgList arity use args)).data ∧
    ∀ a ∈ maskedArgList arity use args,
      a.data <:+: (playbackMissMsg name (maskedArgList arity use args)).data := by
  refine ⟨by unfold playbackPrimOp; rw [h], ?_, ?_⟩
  · exact ⟨"wanted to call ".data,
      ("(" ++ (maskedArgList arity use args).foldl
          (fun acc arg => acc ++ arg ++ ", ") "" ++ ")").data,
      by simp [playbackMissMsg, String.data_append]⟩
  · intro a ha
    obtain ⟨s, t, hst⟩ := mem_foldl_infix a (maskedArgList arity use args) ha ""
    exact ⟨("wanted to call " ++ name ++ "(").data ++ s, t ++ ")".data,
      by simp [playbackMissMsg, String.data_append, ← hst]⟩

/-- Closed instance of playbackPrimOp_miss: an empty table makes the call fail
with the message that spells out the operation and its argument snapshot. -/
theorem playbackPrimOp_miss_witness :
    playbackPrimOp "getEnv" 1 witRealOp constTrue witPos witArgs ⟨[]⟩ ⟨0⟩
      = (⟨[]⟩, ⟨0⟩,
          Except.error ⟨playbackMissMsg "getEnv" (maskedArgList 1 constTrue witArgs)⟩) :=
  (playbackPrimOp_miss "getEnv" 1 witRealOp constTrue witPos witArgs ⟨[]⟩ ⟨0⟩
    rfl).1

/-- Claim C10: in Record mode, when the real implementation raises, the
exception propagates before the table write, so the Recording table (the whole
EvalState part) is returned unchanged: a failed invocation never adds or
overwrites an entry. -/
theorem recordPrimOp_errorUnchanged
    (name : String) (arity : Nat) (primOp : PrimOpFun) (use : Nat → Bool)
    (pos : Pos) (args : Nat → Value) (st : EvalCtx) (w w2 : World)
    (e : EvalError)
    (h : primOp pos args w = (w2, Except.error e)) :
    recordPrimOp name arity primOp use pos args st w = (st, w2, Except.error e) := by
  unfold recordPrimOp
  rw [h]

/-- Closed instance of recordPrimOp_errorUnchanged: the failing implementation
leaves the preexisting table entry intact. -/
theorem recordPrimOp_errorUnchanged_witness :
    recordPrimOp "getEnv" 1 witFailOp constTrue witPos witArgs
        ⟨[(("getEnv", ["HOME"]), Value.vStr "old")]⟩ ⟨0⟩
      = (⟨[(("getEnv", ["HOME"]), Value.vStr "old")]⟩, ⟨1⟩,
          Except.error ⟨"boom"⟩) :=
  recordPrimOp_errorUnchanged "getEnv" 1 witFailOp constTrue witPos witArgs
    ⟨[(("getEnv", ["HOME"]), Value.vStr "old")]⟩ ⟨0⟩ ⟨1⟩ ⟨"boom"⟩ rfl

/-- Claim C4, counterexample: in RecordAndPlayback mode transformPrimOp does
not produce the try-playback-then-record wrapper the spec describes (nor any
wrapper at all): the switch falls into its default branch, which aborts. -/
theorem transformPrimOp_recordAndPlayback_cx :
    transformPrimOp DeterministicEvaluationMode.RecordAndPlayback "getEnv" 1
        witRealOp constTrue
      ≠ TransformedPrimOp.wrapped
          (recordAndPlaybackPrimOp "getEnv" 1 witRealOp constTrue) := by
  intro h
  exact TransformedPrimOp.noConfusion h

/-- Claim C4 (amended): in RecordAndPlayback mode every impure built-in
registration reaches the default branch of transformPrimOp, which calls
abort(), for every operation; no Playback lookup and no Record fallback ever
happens in that mode. -/
theorem transformPrimOp_recordAndPlayback_aborts
    (name : String) (arity : Nat) (primOp : PrimOpFun) (use : Nat → Bool) :
    transformPrimOp DeterministicEvaluationMode.RecordAndPlayback name arity
        primOp use
      = TransformedPrimOp.aborted := rfl

/-- Claim C5, counterexample: a built-in registered through
addUnsupportedImpurePrimOp executes its real implementation in
RecordAndPlayback mode — the side-effect counter moves from 0 to 1 and the
real result comes back — contradicting that it executes normally only under
Normal mode. -/
theorem addUnsupportedImpurePrimOp_cx :
    addUnsupportedImpurePrimOp DeterministicEvaluationMode.RecordAndPlayback
        "getEnv" 1 witRealOp witPos witArgs ⟨[]⟩ ⟨0⟩
      = (⟨[]⟩, ⟨1⟩, Except.ok (Value.vStr "real")) := rfl

/-- Claim C5 (amended): a built-in registered as unsupported raises, under
Record or Playback mode, an error naming the operation and the call-site
position regardless of the argument values; under the remaining modes — Normal
and also RecordAndPlayback — the real implementation executes normally. -/
theorem addUnsupportedImpurePrimOp_spec
    (mode : DeterministicEvaluationMode) (name : String) (arity : Nat)
    (primOp : PrimOpFun) (pos : Pos) (args : Nat → Value) (st : EvalCtx)
    (w : World) :
    ((mode = DeterministicEvaluationMode.Record ∨
        mode = DeterministicEvaluationMode.Playback) →
      addUnsupportedImpurePrimOp mode name arity primOp pos args st w
        = (st, w, Except.error ⟨unsupportedMsg name pos⟩) ∧
      name.data <:+: (unsupportedMsg name pos).data ∧
      (showPos pos).data <:+: (unsupportedMsg name pos).data) ∧
    ((mode = DeterministicEvaluationMode.Normal ∨
        mode = DeterministicEvaluationMode.RecordAndPlayback) →
      addUnsupportedImpurePrimOp mode name arity primOp pos args st w
        = liftPrimOp primOp pos args st w) := by
  constructor
  · intro hmode
    have hreg : addUnsupportedImpurePrimOp mode name arity primOp
        = unsupportedPrimOp name := by
      unfold addUnsupportedImpurePrimOp
      rcases hmode with rfl | rfl <;> simp
    refine ⟨by rw [hreg]; rfl, ?_, ?_⟩
    · exact ⟨"primop \x27".data,
        ("\x27 is not (yet) supported in Record/Playback mode (used at \x27" ++
          showPos pos ++ "\x27)").data,
        by simp [unsupportedMsg, String.data_append]⟩
    · exact ⟨("primop \x27" ++ name ++
          "\x27 is not (yet) supported in Record/Playback mode (used at \x27").data,
        "\x27)".data,
        by simp [unsupportedMsg, String.data_append]⟩
  · intro hmode
    have hreg : addUnsupportedImpurePrimOp mode name arity primOp
        = liftPrimOp primOp := by
      unfold addUnsupportedImpurePrimOp
      rcases hmode with rfl | rfl <;> simp
    rw [hreg]

/-- Closed instance of addUnsupportedImpurePrimOp_spec: in Record mode the call
is rejected with the unsupported-operation error and the world is untouched. -/
theorem addUnsupportedImpurePrimOp_spec_witness :
    addUnsupportedImpurePrimOp DeterministicEvaluationMode.Record "getEnv" 1
        witRealOp witPos witArgs ⟨[]⟩ ⟨0⟩
      = (⟨[]⟩, ⟨0⟩, Except.error ⟨unsupportedMsg "getEnv" witPos⟩) :=
  ((addUnsupportedImpurePrimOp_spec DeterministicEvaluationMode.Record "getEnv"
      1 witRealOp witPos witArgs ⟨[]⟩ ⟨0⟩).1 (Or.inl rfl)).1

/-- Claim C6: the Recording-table key computed by both wrappers is a function
of the operation name and the stringified masked argument positions only: two
argument vectors that agree on every masked position yield the same key, and
consequently the whole Playback dispatch behaves identically on them. -/
theorem recordKey_maskedOnly
    (name : String) (arity : Nat) (use : Nat → Bool)
    (args1 args2 : Nat → Value) (primOp : PrimOpFun) (pos : Pos)
    (st : EvalCtx) (w : World)
    (h : ∀ i, i < arity → use i = true → args1 i = args2 i) :
    recordKey name arity use args1 = recordKey name arity use args2 ∧
    playbackPrimOp name arity primOp use pos args1 st w
      = playbackPrimOp name arity primOp use pos args2 st w := by
  have hm := maskedArgList_congr arity use args1 args2 h
  constructor
  · unfold recordKey
    rw [hm]
  · unfold playbackPrimOp recordKey
    rw [hm]

/-- Closed instance of recordKey_maskedOnly: with the mask selecting only
position 0, argument vectors differing at position 1 produce the same key. -/
theorem recordKey_maskedOnly_witness :
    recordKey "getEnv" 2 (onlyPos 0) witArgs
      = recordKey "getEnv" 2 (onlyPos 0) witArgs2 :=
  (recordKey_maskedOnly "getEnv" 2 (onlyPos 0) witArgs witArgs2 witRealOp
    witPos ⟨[]⟩ ⟨0⟩ (by decide)).1

/-- Claim C7: forcing a thunk cell twice evaluates the captured expression at
most once — the first successful force overwrites the cell in place with the
result (one evaluation, counter bumped once), and forcing the overwritten cell
again returns the identical result with the cell state, and in particular the
evaluation counter, unchanged (no re-invocation of evaluation); the overwrite
is in the shared cell state, so it is what every holder of the handle sees. -/
theorem forceValue_memoizes
    (ev : Nat → Nat → Except EvalError Value) (s : ForceState)
    (env expr : Nat) (v : Value)
    (hcell : s.cell = Value.thunk env expr)
    (hev : ev env expr = Except.ok v)
    (hconc : v.isConcrete = true) :
    forceValue ev s = (⟨v, s.evalCount + 1⟩, Except.ok v) ∧
    forceValue ev ⟨v, s.evalCount + 1⟩
      = (⟨v, s.evalCount + 1⟩, Except.ok v) := by
  constructor
  · unfold forceValue
    rw [hcell]
    dsimp only
    rw [hev]
  · unfold forceValue
    cases v with
    | thunk e1 e2 => simp [Value.isConcrete] at hconc
    | blackhole => simp [Value.isConcrete] at hconc
    | vInt n => rfl
    | vBool b => rfl
    | vStr s2 => rfl
    | vNull => rfl

/-- Closed instance of forceValue_memoizes: the first force evaluates once and
stores 7; the second force is a no-op returning the identical 7. -/
theorem forceValue_memoizes_witness :
    forceValue witEval ⟨Value.thunk 0 0, 0⟩
        = (⟨Value.vInt 7, 1⟩, Except.ok (Value.vInt 7)) ∧
    forceValue witEval ⟨Value.vInt 7, 1⟩
        = (⟨Value.vInt 7, 1⟩, Except.ok (Value.vInt 7)) :=
  forceValue_memoizes witEval ⟨Value.thunk 0 0, 0⟩ 0 0 (Value.vInt 7) rfl rfl
    rfl

/-- Claim C8: when evaluation of a thunk raises, the failing force propagates
the error and leaves the cell Blackhole permanently, so every later force of
the same cell also fails — with the same class of error (an EvalError, the
value-could-not-be-computed / infinite-recursion error) — without
re-attempting evaluation (the evaluation counter is unchanged by the second
force). -/
theorem forceValue_error_persists
    (ev : Nat → Nat → Except EvalError Value) (s : ForceState)
    (env expr : Nat) (err : EvalError)
    (hcell : s.cell = Value.thunk env expr)
    (hev : ev env expr = Except.error err) :
    forceValue ev s = (⟨Value.blackhole, s.evalCount + 1⟩, Except.error err) ∧
    forceValue ev ⟨Value.blackhole, s.evalCount + 1⟩
      = (⟨Value.blackhole, s.evalCount + 1⟩,
          Except.error infiniteRecursionError) := by
  constructor
  · unfold forceValue
    rw [hcell]
    dsimp only
    rw [hev]
  · rfl

/-- Closed instance of forceValue_error_persists: a failing evaluation leaves a
permanent Blackhole and every later force of it fails again without another
evaluation attempt. -/
theorem forceValue_error_persists_witness :
    forceValue witEvalFail ⟨Value.thunk 0 0, 0⟩
        = (⟨Value.blackhole, 1⟩, Except.error ⟨"assertion failed"⟩) ∧
    forceValue witEvalFail ⟨Value.blackhole, 1⟩
        = (⟨Value.blackhole, 1⟩, Except.error infiniteRecursionError) :=
  forceValue_error_persists witEvalFail ⟨Value.thunk 0 0, 0⟩ 0 0
    ⟨"assertion failed"⟩ rfl rfl

/-- Claim C9: findFile returns the resolution of the first entry in list order
whose resolved location exists on disk — an earlier hit wins over any later
one — and when no entry hits, it fails with a file-not-found error whose
message names the requested module and the attempted search path. -/
theorem findFile_spec
    (ex : String → Bool) (res : String × String → String → Option String)
    (sp : List (String × String)) (nm : String) :
    (∀ (i : Nat) (hi : i < sp.length) (loc : String),
      entryHit ex res nm (sp.get ⟨i, hi⟩) = some loc →
      (∀ j (hj : j < i),
        entryHit ex res nm (sp.get ⟨j, Nat.lt_trans hj hi⟩) = none) →
      findFile ex res sp nm = Except.ok loc) ∧
    ((∀ e ∈ sp, entryHit ex res nm e = none) →
      findFile ex res sp nm = Except.error ⟨fileNotFoundMsg sp nm⟩ ∧
      nm.data <:+: (fileNotFoundMsg sp nm).data ∧
      (showSearchPath sp).data <:+: (fileNotFoundMsg sp nm).data) := by
  constructor
  · intro i hi loc hhit hbefore
    unfold findFile
    rw [findFileAux_of_first ex res nm sp i hi loc hhit hbefore]
  · intro h
    refine ⟨?_, ?_, ?_⟩
    · unfold findFile
      rw [findFileAux_of_none ex res nm sp h]
    · exact ⟨"file ".data,
        (" was not found in the Nix search path " ++ showSearchPath sp).data,
        by simp [fileNotFoundMsg, String.data_append]⟩
    · exact ⟨("file " ++ nm ++ " was not found in the Nix search path ").data,
        [], by simp [fileNotFoundMsg, String.data_append]⟩

/-- Closed instance of findFile_spec: a module resolvable under both entries is
resolved through the first one (dir A), honoring list order. -/
theorem findFile_spec_witness :
    findFile witExists witResolve witSP "mod" = Except.ok "A/mod" :=
  (findFile_spec witExists witResolve witSP "mod").1 0 (by decide) "A/mod"
    (by decide) (fun j hj => absurd hj (Nat.not_lt_zero j))

end NixEval
